import Mathlib

/-!
Verification development for the `b3pay-react-tronlink` wallet-connector
adapter.  The repository contains three source files:

* `src/detect-provider.ts` — `detectTronProvider`, a promise that resolves to
  the injected `window.tronLink` object (or `null`) guarded by a boolean
  latch over an initialization event and a timeout;
* `src/index.ts` — two lineages of the `TronLink` connector class: an
  EVM-style connector (`connectEagerly`, `activate`, provider event
  handlers) and a chain-native connector (`connect`, `connectEagerly`,
  `activate`, a `window` message listener);
* `src/signer.ts` — `TronSigner`, a thin forwarding signer.

The code is sequential promise orchestration, so it is embedded as pure
functions from explicit environments (oracles for every externally-awaited
request) to a trace of calls into the external action layer
(`startActivation` / cancellation / `update` / `resetState`) together with
the settled outcome of the returned promise (`Except` value, or `none` for
a promise that never settles within the recursion fuel).
-/

deriving instance DecidableEq for Except

/-- A JavaScript number as produced by `Number.parseInt`: either `NaN` or an
integer value. -/
inductive JsNum
  | nan
  | int (n : Int)
deriving DecidableEq

/-- Value of one hexadecimal digit character, `none` for a non-digit. -/
def hexDigitVal (c : Char) : Option Nat :=
  if ('0' ≤ c ∧ c ≤ '9') then some (c.toNat - '0'.toNat)
  else if ('a' ≤ c ∧ c ≤ 'f') then some (c.toNat - 'a'.toNat + 10)
  else if ('A' ≤ c ∧ c ≤ 'F') then some (c.toNat - 'A'.toNat + 10)
  else none

/-- Accumulate the longest leading run of hex digits; the accumulator is
`none` while no digit has been consumed (which models the `NaN` result of
`Number.parseInt` on an input with no digits). -/
def parseHexAux : List Char → Option Nat → Option Nat
  | [], acc => acc
  | c :: cs, acc =>
    match hexDigitVal c with
    | some d => parseHexAux cs (some (acc.getD 0 * 16 + d))
    | none => acc

/-- Whitespace characters skipped by `Number.parseInt`. -/
def isWsChar (c : Char) : Bool :=
  c = ' ' ∨ c = '\t' ∨ c = '\n' ∨ c = '\r'

/-- `parseChainId` from `src/index.ts`: `Number.parseInt(chainId, 16)`.
Leading whitespace is skipped, an optional sign and an optional `0x`/`0X`
prefix are accepted, and the longest leading run of hex digits is parsed;
no digits means `NaN`. -/
def parseChainId (s : String) : JsNum :=
  let cs := s.toList.dropWhile isWsChar
  let signed : Bool × List Char :=
    match cs with
    | '-' :: rest => (true, rest)
    | '+' :: rest => (false, rest)
    | _ => (false, cs)
  let body : List Char :=
    match signed.2 with
    | '0' :: 'x' :: rest => rest
    | '0' :: 'X' :: rest => rest
    | _ => signed.2
  match parseHexAux body none with
  | none => JsNum.nan
  | some n => JsNum.int (if signed.1 then -(n : Int) else (n : Int))

/-- Lowercase hexadecimal rendering of a natural number, as produced by
JavaScript `n.toString(16)`. -/
def natToHexStr (n : Nat) : String :=
  String.mk (Nat.toDigits 16 n)

/-- The template literal `0x${desiredChainId.toString(16)}` from
`src/index.ts` (a negative JS number renders with its sign after `0x`). -/
def chainIdHexString (d : Int) : String :=
  if d < 0 then "0x-" ++ natToHexStr d.natAbs else "0x" ++ natToHexStr d.natAbs

/-- JS strict equality between a parsed chain id and a plain number:
`NaN` is equal to nothing. -/
def jsNumEqInt : JsNum → Int → Bool
  | JsNum.nan, _ => false
  | JsNum.int n, d => n == d

/-- A `ProviderRpcError`: the `code` field is inspected by `activate`, the
message is carried along unchanged. -/
structure RpcError where
  code : Int
  msg : String
deriving DecidableEq

/-- The errors that can settle a connector promise. -/
inductive JsError
  | noTronLink
  | rpc (e : RpcError)
  | tronLink (message : String) (code : Int)
  | str (s : String)
deriving DecidableEq

/-- Payload of a call to `actions.update`: each field is present or absent,
exactly as in the partial-update objects the source passes. -/
structure Update where
  chainId? : Option JsNum
  accounts? : Option (List String)
deriving DecidableEq

/-- One observable call made by the connector: calls into the external
action layer, requests issued to the provider, the error callback, and a
marker for a recursive `activate` re-entry.  Activation tokens are
identified by the recursion depth of the frame that started them (each
frame starts at most one token). -/
inductive Ev
  | startActivation (t : Nat)
  | cancel (t : Nat)
  | update (u : Update)
  | reset
  | onErrorEv
  | reqAccountsPair
  | reqTronAccounts
  | reqSwitch (hex : String)
  | reqAdd (hex : String)
  | recurse (depth : Nat) (target : Int)
deriving DecidableEq

namespace DetectProvider

/-- A dynamically-typed JavaScript option value, enough to express the
`typeof` checks in `_validateInputs`. -/
inductive JsVal
  | undef
  | boolv (b : Bool)
  | numv (n : Int)
  | strv (s : String)
deriving DecidableEq

/-- The options bag passed to `detectTronProvider`; an absent property is
`undef`. -/
structure DetectOptions where
  mustBeTronLink : JsVal
  silent : JsVal
  timeout : JsVal
deriving DecidableEq

/-- JS destructuring default: the default applies exactly when the property
is `undefined`. -/
def defaulted (v d : JsVal) : JsVal :=
  match v with
  | JsVal.undef => d
  | x => x

def typeofBoolean : JsVal → Bool
  | JsVal.boolv _ => true
  | _ => false

def typeofNumber : JsVal → Bool
  | JsVal.numv _ => true
  | _ => false

/-- `_validateInputs` from `src/detect-provider.ts`, applied to the three
destructured (already defaulted) option values; returns the message of the
error thrown, or `none` when all three checks pass.  (The source messages
quote the option name; the quotes are omitted here.) -/
def _validateInputs (m s t : JsVal) : Option String :=
  if ¬ typeofBoolean m then
    some "@metamask/detect-provider: Expected option mustBeTronLink to be a boolean."
  else if ¬ typeofBoolean s then
    some "@metamask/detect-provider: Expected option silent to be a boolean."
  else if ¬ typeofNumber t then
    some "@metamask/detect-provider: Expected option timeout to be a number."
  else none

/-- The injected `window.tronLink` object as far as detection inspects it:
only the truthiness of its `isTronLink` flag matters. -/
structure Prov where
  isTronLink : Bool
deriving DecidableEq

/-- An asynchronous occurrence after `detect` returned its promise: the
`tronLink#initialized` event being dispatched, or the `setTimeout` timer
firing.  Each carries the value of `window.tronLink` at that moment. -/
inductive Firing
  | initEvent
  | timeoutFire
deriving DecidableEq

/-- Environment of one `detectTronProvider` run: the value of
`window.tronLink` at call time, and the ordered later firings. -/
structure DetectEnv where
  atCall : Option Prov
  firings : List (Firing × Option Prov)

/-- Mutable state of the promise executor: the `handled` latch, whether the
one-shot event listener is registered and the timer armed, how many times
the resolution logic (the code past the latch) has run, how many console
errors were printed, and the resolution value once resolved
(`some (some p)` = provider, `some none` = null, `none` = still pending). -/
structure DetectState where
  handled : Bool
  listenerOn : Bool
  timerSet : Bool
  resolveCalls : Nat
  loggedErrors : Nat
  value : Option (Option Prov)
deriving DecidableEq

/-- `handleTronLink` from `src/detect-provider.ts`, invoked with the value
`w` of `window.tronLink` at invocation time.  If the latch is set the call
returns immediately; otherwise it sets the latch, removes the event
listener, and resolves with the provider or `null` (logging unless
`silent`). -/
def handleTronLink (must silent : Bool) (w : Option Prov) (s : DetectState) : DetectState :=
  if s.handled then s
  else
    match w with
    | some p =>
      if ¬ must ∨ p.isTronLink then
        ⟨true, false, s.timerSet, s.resolveCalls + 1, s.loggedErrors, some (some p)⟩
      else
        ⟨true, false, s.timerSet, s.resolveCalls + 1,
          s.loggedErrors + (if silent then 0 else 1), some none⟩
    | none =>
      ⟨true, false, s.timerSet, s.resolveCalls + 1,
        s.loggedErrors + (if silent then 0 else 1), some none⟩

/-- Deliver one firing: the `tronLink#initialized` event invokes the
listener only while it is registered (it was added with `once: true`), and
the timer callback runs only while the timer is armed; either way the
corresponding registration is consumed. -/
def stepFiring (must silent : Bool) (s : DetectState) : Firing × Option Prov → DetectState
  | (Firing.initEvent, w) =>
    if s.listenerOn then
      let s' := handleTronLink must silent w s
      ⟨s'.handled, false, s'.timerSet, s'.resolveCalls, s'.loggedErrors, s'.value⟩
    else s
  | (Firing.timeoutFire, w) =>
    if s.timerSet then
      let s' := handleTronLink must silent w s
      ⟨s'.handled, s'.listenerOn, false, s'.resolveCalls, s'.loggedErrors, s'.value⟩
    else s

/-- Initial executor state when the provider slot is empty at call time:
the event listener is registered and the timer armed. -/
def armedState : DetectState := ⟨false, true, true, 0, 0, none⟩

/-- The body of the promise executor of `detectTronProvider`: if
`window.tronLink` is already populated, `handleTronLink` runs immediately
(no listener, no timer); otherwise the listener and timer are armed and the
later firings are processed in order. -/
def runDetectCore (must silent : Bool) (env : DetectEnv) : DetectState :=
  match env.atCall with
  | some p => (env.firings).foldl (stepFiring must silent)
      (handleTronLink must silent (some p) ⟨false, false, false, 0, 0, none⟩)
  | none => (env.firings).foldl (stepFiring must silent) armedState

/-- The validation outcome of a `detectTronProvider` options bag:
`_validateInputs` applied to the three destructured option values, after
the JS destructuring defaults. -/
def validatedMsg (opts : DetectOptions) : Option String :=
  _validateInputs (defaulted opts.mustBeTronLink (JsVal.boolv false))
    (defaulted opts.silent (JsVal.boolv false))
    (defaulted opts.timeout (JsVal.numv 3000))

/-- `detectTronProvider` itself: destructure the options with their
defaults, run `_validateInputs` (a synchronous throw, `Except.error`,
before the promise is created), then build the promise whose executor is
`runDetectCore`. -/
def detectTronProvider (opts : DetectOptions) (env : DetectEnv) :
    Except String DetectState :=
  match validatedMsg opts with
  | some msg => Except.error msg
  | none =>
    Except.ok (runDetectCore
      (defaulted opts.mustBeTronLink (JsVal.boolv false) == JsVal.boolv true)
      (defaulted opts.silent (JsVal.boolv false) == JsVal.boolv true) env)

end DetectProvider

namespace EvmTronLink

/-! ### The EVM-style `TronLink` connector (first class in `src/index.ts`) -/

/-- Instance state relevant to `isomorphicInitialize` (lines 53-96): whether
the memoized `eagerConnection` promise field has been set, how many such
promises were created, how many times the detector was run, and how many
times the set of four long-lived provider listeners (`connect`,
`disconnect`, `chainChanged`, `accountsChanged`) was attached. -/
structure InitState where
  eagerConnection : Bool
  promiseCreations : Nat
  detectCalls : Nat
  listenerSetsAttached : Nat
deriving DecidableEq

/-- Fresh adapter instance. -/
def initState0 : InitState := ⟨false, 0, 0, 0⟩

/-- One call to `isomorphicInitialize`: if `this.eagerConnection` is set the
call returns immediately; otherwise it creates the memoized promise, runs
the detector once, and — when the detector resolves a provider — attaches
the listener set once. -/
def isomorphicInitialize (providerResolved : Bool) (s : InitState) : InitState :=
  if s.eagerConnection then s
  else
    ⟨true, s.promiseCreations + 1, s.detectCalls + 1,
      s.listenerSetsAttached + (if providerResolved then 1 else 0)⟩

/-- `n` successive calls to `isomorphicInitialize` on one fresh instance
(via any public entry point). -/
def initCalls (providerResolved : Bool) : Nat → InitState
  | 0 => initState0
  | n + 1 => isomorphicInitialize providerResolved (initCalls providerResolved n)

/-- The `connect` listener (lines 69-74): a chain-id-only partial update. -/
def connectHandler (chainId : String) : List Ev :=
  [Ev.update ⟨some (parseChainId chainId), none⟩]

/-- The `disconnect` listener (lines 76-79): reset, then report the error. -/
def disconnectHandler : List Ev :=
  [Ev.reset, Ev.onErrorEv]

/-- The `chainChanged` listener (lines 81-83). -/
def chainChangedHandler (chainId : String) : List Ev :=
  [Ev.update ⟨some (parseChainId chainId), none⟩]

/-- The `accountsChanged` listener (lines 85-92): an empty accounts list
disconnects via `resetState`, otherwise an accounts-only partial update. -/
def accountsChangedHandler (accounts : List String) : List Ev :=
  if accounts.length = 0 then [Ev.reset]
  else [Ev.update ⟨none, some accounts⟩]

/-- Environment of one `connectEagerly` call: whether the detector resolved
a provider, and the outcome of
`Promise.all([eth_chainId, eth_accounts])`. -/
structure EagerEnv where
  providerResolved : Bool
  pairRes : Except JsError (String × List String)

/-- `connectEagerly` (lines 99-123).  Starts an activation (token 0);
if no provider was resolved it returns `cancelActivation()` (no error).
Otherwise it reads chain id and accounts; a non-empty accounts list commits
one full update, while an empty list throws `"No accounts returned"` — and
every rejection of the pair is swallowed by the final `.catch`, which calls
`resetState` instead of the cancellation token (see the source comment
about the intermediary `connect` event on mobile). -/
def connectEagerly (env : EagerEnv) : List Ev × Except JsError Unit :=
  if ¬ env.providerResolved then
    ([Ev.startActivation 0, Ev.cancel 0], Except.ok ())
  else
    match env.pairRes with
    | Except.error _ =>
      ([Ev.startActivation 0, Ev.reqAccountsPair, Ev.reset], Except.ok ())
    | Except.ok (chainId, accounts) =>
      if accounts.length ≠ 0 then
        ([Ev.startActivation 0, Ev.reqAccountsPair,
          Ev.update ⟨some (parseChainId chainId), some accounts⟩], Except.ok ())
      else
        ([Ev.startActivation 0, Ev.reqAccountsPair, Ev.reset], Except.ok ())

/-- The argument of `activate`: a plain numeric chain id or a full
`AddEthereumChainParameter` (of which only `chainId` is inspected). -/
inductive DesiredChain
  | num (n : Int)
  | params (chainId : Int)
deriving DecidableEq

/-- `typeof desiredChainIdOrChainParameters === "number"`. -/
def isNumArg : Option DesiredChain → Bool
  | some (DesiredChain.num _) => true
  | _ => false

/-- The `desiredChainId` local of `activate`:
`typeof arg === "number" ? arg : arg?.chainId`. -/
def desiredOf : Option DesiredChain → Option Int
  | none => none
  | some (DesiredChain.num n) => some n
  | some (DesiredChain.params c) => some c

/-- Oracle for one recursion depth of `activate`: the truthiness of
`this.provider?.isConnected?.()` at the frame's entry, the outcome of
`Promise.all([eth_chainId, eth_requestAccounts])`, and the outcomes of the
`wallet_switchEthereumChain` and `wallet_addEthereumChain` requests. -/
structure ActRound where
  isConnected : Bool
  pairRes : Except JsError (String × List String)
  switchRes : Except RpcError Unit
  addRes : Except RpcError Unit

/-- Environment of an `activate` call tree. -/
structure ActEnv where
  providerResolved : Bool
  rounds : Nat → ActRound

/-- The final `.catch` of `activate` (lines 192-195): on a rejection,
invoke the frame's cancellation token (if one was started) and rethrow. -/
def withCatch (started : Bool) (depth : Nat) :
    List Ev × Option (Except JsError Unit) → List Ev × Option (Except JsError Unit)
  | (tr, some (Except.error e)) =>
    (tr ++ (if started then [Ev.cancel depth] else []), some (Except.error e))
  | (tr, r) => (tr, r)

/-- The `try` part of one `activate` frame (lines 142-191), parameterized
by the recursive call.  `none` as an outcome stands for a promise that
never settles (recursion fuel ran out in the model). -/
def frameBody (env : ActEnv) (recurseF : Option DesiredChain → List Ev × Option (Except JsError Unit))
    (depth : Nat) (arg : Option DesiredChain) : List Ev × Option (Except JsError Unit) :=
  if ¬ env.providerResolved then
    ([], some (Except.error JsError.noTronLink))
  else
    match (env.rounds depth).pairRes with
    | Except.error e => ([Ev.reqAccountsPair], some (Except.error e))
    | Except.ok (chainId, accounts) =>
      let received := parseChainId chainId
      match desiredOf arg with
      | none =>
        ([Ev.reqAccountsPair, Ev.update ⟨some received, some accounts⟩],
          some (Except.ok ()))
      | some desired =>
        -- `!desiredChainId || receivedChainId === desiredChainId`
        if desired = 0 ∨ jsNumEqInt received desired then
          ([Ev.reqAccountsPair, Ev.update ⟨some received, some accounts⟩],
            some (Except.ok ()))
        else
          let hex := chainIdHexString desired
          let afterSwitch : List Ev × Option (Except JsError Unit) :=
            match (env.rounds depth).switchRes with
            | Except.ok _ => ([], some (Except.ok ()))
            | Except.error e =>
              if e.code = 4902 ∧ isNumArg arg = false then
                match (env.rounds depth).addRes with
                | Except.ok _ => ([Ev.reqAdd hex], some (Except.ok ()))
                | Except.error e2 => ([Ev.reqAdd hex], some (Except.error (JsError.rpc e2)))
              else ([], some (Except.error (JsError.rpc e)))
          match afterSwitch with
          | (tr2, some (Except.ok _)) =>
            let rec3 := recurseF (some (DesiredChain.num desired))
            ([Ev.reqAccountsPair, Ev.reqSwitch hex] ++ tr2
              ++ [Ev.recurse depth desired] ++ rec3.1, rec3.2)
          | (tr2, r2) => ([Ev.reqAccountsPair, Ev.reqSwitch hex] ++ tr2, r2)

/-- `activate` (lines 134-196), fuel-indexed: each frame may start an
activation token (identified with its depth), runs `frameBody`, and wraps
it in the final `.catch`. -/
def activateAux (env : ActEnv) : Nat → Nat → Option DesiredChain → List Ev × Option (Except JsError Unit)
  | 0, _, _ => ([], none)
  | fuel + 1, depth, arg =>
    let started := ¬ (env.rounds depth).isConnected
    let pre : List Ev := if started then [Ev.startActivation depth] else []
    let body := withCatch started depth
      (frameBody env (activateAux env fuel (depth + 1)) depth arg)
    (pre ++ body.1, body.2)

/-- The public `activate` entry point (depth 0). -/
def activate (env : ActEnv) (fuel : Nat) (arg : Option DesiredChain) :
    List Ev × Option (Except JsError Unit) :=
  activateAux env fuel 0 arg

/-- Is this event a `wallet_addEthereumChain` request? -/
def isAddEv : Ev → Bool
  | Ev.reqAdd _ => true
  | _ => false

/-- Is this event a recursive re-entry made directly by the frame at depth
`d`? -/
def isRecurseFrom (d : Nat) : Ev → Bool
  | Ev.recurse d' _ => d' == d
  | _ => false

end EvmTronLink

namespace NativeTronLink

/-! ### The chain-native `TronLink` connector (second class in `src/index.ts`) -/

/-- The `tronWeb` object of the wallet, as far as the connector reads it:
the default base58 address (absent = `undefined`). -/
structure TronWeb where
  defaultAddressBase58 : Option String
deriving DecidableEq

/-- Result of the `tron_requestAccounts` request when it fulfills: a falsy
value (locked wallet) or a `{code, message}` response object. -/
inductive CNResponse
  | nullish
  | resp (code : Int) (message : String)
deriving DecidableEq

/-- The resolved `window.tronLink` wallet: its `tronWeb` object and the
oracle for its `tron_requestAccounts` request. -/
structure CNWallet where
  tronWeb : TronWeb
  requestAccountsRes : Except JsError CNResponse

/-- Environment of the chain-native connector: `this.tronlink` after
`isomorphicInitialize` (that is, what the detector resolved). -/
structure CNEnv where
  tronlink : Option CNWallet

/-- JS truthiness of an optional string (absent and `""` are falsy). -/
def jsTruthyStr : Option String → Option String
  | none => none
  | some s => if s = "" then none else some s

/-- `this.cancelActivation?.()`. -/
def cancelEvs : Option Nat → List Ev
  | some t => [Ev.cancel t]
  | none => []

/-- The private `connect` method (lines 288-332 of the chain-native class);
`tok` is the current value of the `this.cancelActivation` field.  A missing
wallet just invokes the stored cancellation (no error).  Otherwise
`tron_requestAccounts` is issued; a falsy response throws
`TronLinkError("Wallet is locked!", 100)`, a non-200 code throws the
wallet's message and code, a truthy default base58 address commits the one
update `{chainId: 1000000000, accounts: [base58]}`, and a missing address
throws `"No accounts returned"`.  Every rejection passes through the
`.catch`, which invokes the stored cancellation and rethrows.  (The
`.catch` also rewrites string rejections to code 3000; no claim depends on
that rewriting and the environment here supplies structured errors.) -/
def connect (env : CNEnv) (tok : Option Nat) : List Ev × Except JsError Unit :=
  match env.tronlink with
  | none => (cancelEvs tok, Except.ok ())
  | some w =>
    match w.requestAccountsRes with
    | Except.error e => ([Ev.reqTronAccounts] ++ cancelEvs tok, Except.error e)
    | Except.ok res =>
      match res with
      | CNResponse.nullish =>
        ([Ev.reqTronAccounts] ++ cancelEvs tok,
          Except.error (JsError.tronLink "Wallet is locked!" 100))
      | CNResponse.resp code message =>
        if code ≠ 200 then
          ([Ev.reqTronAccounts] ++ cancelEvs tok,
            Except.error (JsError.tronLink message code))
        else
          match jsTruthyStr w.tronWeb.defaultAddressBase58 with
          | some a =>
            ([Ev.reqTronAccounts,
              Ev.update ⟨some (JsNum.int 1000000000), some [a]⟩], Except.ok ())
          | none =>
            ([Ev.reqTronAccounts] ++ cancelEvs tok,
              Except.error (JsError.str "No accounts returned"))

/-- `connectEagerly` of the chain-native class (lines 374-384): start an
activation (stored in `this.cancelActivation`, token 0), initialize, and if
no wallet was resolved invoke the cancellation and throw
`NoTronLinkError`; otherwise delegate to `connect`. -/
def connectEagerly (env : CNEnv) : List Ev × Except JsError Unit :=
  match env.tronlink with
  | none =>
    ([Ev.startActivation 0, Ev.cancel 0], Except.error JsError.noTronLink)
  | some _ =>
    let c := connect env (some 0)
    ([Ev.startActivation 0] ++ c.1, c.2)

/-- `activate` of the chain-native class (lines 386-393): start an
activation token unless `this.provider?.isConnected?.()` is truthy (in
which case the previously stored token, if any, stays in place), then
initialize and delegate to `connect`. -/
def activate (env : CNEnv) (providerConnected : Bool) (prevTok : Option Nat) :
    List Ev × Except JsError Unit :=
  if providerConnected then connect env prevTok
  else
    let c := connect env (some 0)
    ([Ev.startActivation 0] ++ c.1, c.2)

/-- A cross-context `message` event as the listener (lines 342-368)
discriminates it by `e.data.message.action`. -/
inductive CNMessage
  | accountsChanged (address : String)
  | disconnectWeb
  | rejectWeb
  | setNode (chain : String)
  | other
deriving DecidableEq

/-- The `window` message listener: `accountsChanged` builds the singleton
list `[address]` (so its `length === 0` test can never fire) and resets
only when `this.tronlink?.tronWeb` is falsy, otherwise committing
`{accounts, chainId: 1000000000}`; `disconnectWeb` resets and reports;
`rejectWeb` reports; `setNode` commits chain id `1000000000` for the `"_"`
chain and `1000000001` for any other. -/
def messageHandler (tronWebPresent : Bool) : CNMessage → List Ev
  | CNMessage.accountsChanged address =>
    if [address].length = 0 ∨ tronWebPresent = false then [Ev.reset]
    else [Ev.update ⟨some (JsNum.int 1000000000), some [address]⟩]
  | CNMessage.disconnectWeb => [Ev.reset, Ev.onErrorEv]
  | CNMessage.rejectWeb => [Ev.onErrorEv]
  | CNMessage.setNode chain =>
    if chain = "_" then [Ev.update ⟨some (JsNum.int 1000000000), none⟩]
    else [Ev.update ⟨some (JsNum.int 1000000001), none⟩]
  | CNMessage.other => []

/-- The update events of a trace. -/
def updateEvents (tr : List Ev) : List Ev :=
  tr.filter fun ev =>
    match ev with
    | Ev.update _ => true
    | _ => false

/-- Instance state relevant to the chain-native `isomorphicInitialize`
(lines 334-371): whether the memoized `eagerConnection` promise field is
set, how many such promises were created, how many times the detector was
run, and how many times the long-lived `window` message listener was
attached.  Unlike the EVM-style initializer, the
`window.addEventListener("message", ...)` call is unconditional — it runs
whether or not the detector resolved a wallet. -/
structure InitState where
  eagerConnection : Bool
  promiseCreations : Nat
  detectCalls : Nat
  messageListenersAttached : Nat
deriving DecidableEq

/-- Fresh chain-native adapter instance. -/
def initState0 : InitState := ⟨false, 0, 0, 0⟩

/-- One call to the chain-native `isomorphicInitialize`: a no-op once the
memoized promise exists; otherwise it creates the promise, runs the
detector once, and attaches the `window` message listener once,
unconditionally. -/
def isomorphicInitialize (s : InitState) : InitState :=
  if s.eagerConnection then s
  else ⟨true, s.promiseCreations + 1, s.detectCalls + 1,
    s.messageListenersAttached + 1⟩

/-- `n` successive calls to the chain-native `isomorphicInitialize` on one
fresh instance (via any public entry point). -/
def initCalls : Nat → InitState
  | 0 => initState0
  | n + 1 => isomorphicInitialize (initCalls n)

end NativeTronLink

namespace TronSigner

/-! ### `TronSigner` (`src/signer.ts`) -/

/-- A field of a `TransactionRequest` as JavaScript sees it: absent, a
string, or a number. -/
inductive TxField
  | undef
  | strv (s : String)
  | numv (n : Int)
deriving DecidableEq

/-- JS falsiness of a transaction field (`undefined`, `""` and `0` are
falsy). -/
def txFalsy : TxField → Bool
  | TxField.undef => true
  | TxField.strv s => s = ""
  | TxField.numv n => n = 0

/-- The `to` and `value` fields of the transaction passed to
`sendTransaction`. -/
structure TxRequest where
  «to» : TxField
  value : TxField
deriving DecidableEq

/-- Outcome of `TronSigner.sendTransaction`: a rejection with the given
reason, or the forwarded call
`this.provider.tronWeb.trx.sendTransaction(transaction.to, transaction.value)`. -/
inductive SendResult
  | rejected (reason : String)
  | forwarded («to» : TxField) (value : TxField)
deriving DecidableEq

/-- `sendTransaction` (lines 27-37 of `src/signer.ts`):
reject `"No provider"` when `this.provider.tronWeb` is falsy, reject
`"No data"` when `!transaction.to && !transaction.value`, otherwise forward
the `(to, value)` pair. -/
def sendTransaction (hasTronWeb : Bool) (tx : TxRequest) : SendResult :=
  if ¬ hasTronWeb then SendResult.rejected "No provider"
  else if txFalsy tx.«to» ∧ txFalsy tx.value then SendResult.rejected "No data"
  else SendResult.forwarded tx.«to» tx.value

end TronSigner

namespace DetectProvider

/-! ### Lemmas about the detection latch -/

/-- `handleTronLink` always returns a state with the latch set. -/
lemma handleTronLink_handled_true (m sl : Bool) (w : Option Prov) (s : DetectState) :
    (handleTronLink m sl w s).handled = true := by
  unfold handleTronLink
  split
  · assumption
  · split
    · split <;> rfl
    · rfl

/-- Once the latch is set, `handleTronLink` is the identity. -/
lemma handleTronLink_of_handled (m sl : Bool) (w : Option Prov) (s : DetectState)
    (h : s.handled = true) : handleTronLink m sl w s = s := by
  unfold handleTronLink
  simp [h]

/-- Once the latch is set, a later firing changes neither the resolution
value nor the resolution count, and the latch stays set. -/
lemma stepFiring_of_handled (m sl : Bool) (s : DetectState)
    (h : s.handled = true) (f : Firing × Option Prov) :
    (stepFiring m sl s f).handled = true ∧
    (stepFiring m sl s f).value = s.value ∧
    (stepFiring m sl s f).resolveCalls = s.resolveCalls := by
  rcases f with ⟨fir, w⟩
  cases fir <;>
    simp only [stepFiring] <;>
    split <;>
    simp [handleTronLink_of_handled m sl w s h, h]

/-- `stepFiring_of_handled`, iterated over a firing list. -/
lemma foldl_of_handled (m sl : Bool) :
    ∀ (l : List (Firing × Option Prov)) (s : DetectState), s.handled = true →
      (l.foldl (stepFiring m sl) s).handled = true ∧
      (l.foldl (stepFiring m sl) s).value = s.value ∧
      (l.foldl (stepFiring m sl) s).resolveCalls = s.resolveCalls := by
  intro l
  induction l with
  | nil => intro s h; exact ⟨h, rfl, rfl⟩
  | cons f rest ih =>
    intro s h
    have hs := stepFiring_of_handled m sl s h f
    have hr := ih (stepFiring m sl s f) hs.1
    exact ⟨hr.1, hr.2.1.trans hs.2.1, hr.2.2.trans hs.2.2⟩

/-- Executor invariant: the resolution count is 1 after the latch is set and
0 before, the value is resolved exactly when the latch is set, and a
consumed timer implies the latch is set. -/
def Inv (s : DetectState) : Prop :=
  s.resolveCalls = (if s.handled then 1 else 0) ∧
  s.value.isSome = s.handled ∧
  (s.timerSet = false → s.handled = true)

lemma inv_armed : Inv armedState := by
  refine ⟨rfl, rfl, ?_⟩
  intro h
  simp [armedState] at h

/-- `handleTronLink` establishes the invariant from any pre-latch state with
no resolution yet. -/
lemma inv_handle (m sl : Bool) (w : Option Prov) (s : DetectState)
    (h1 : s.handled = false) (h2 : s.resolveCalls = 0) (_h3 : s.value = none) :
    Inv (handleTronLink m sl w s) := by
  unfold handleTronLink
  rcases w with _ | p <;> simp [h1, h2, Inv]
  split <;> simp

lemma inv_step (m sl : Bool) (s : DetectState) (h : Inv s)
    (f : Firing × Option Prov) : Inv (stepFiring m sl s f) := by
  rcases h with ⟨hc, hv, ht⟩
  rcases hh : s.handled with _ | _
  · -- latch not yet set: the state is fresh
    have hc0 : s.resolveCalls = 0 := by simpa [hh] using hc
    have hv0 : s.value = none := by
      rcases hval : s.value with _ | v
      · rfl
      · rw [hval, hh] at hv; simp at hv
    rcases f with ⟨fir, w⟩
    cases fir
    · simp only [stepFiring]
      split
      · rcases inv_handle m sl w s hh hc0 hv0 with ⟨ic, iv, _⟩
        exact ⟨ic, iv, fun _ => handleTronLink_handled_true m sl w s⟩
      · exact ⟨hc, hv, ht⟩
    · simp only [stepFiring]
      split
      · rcases inv_handle m sl w s hh hc0 hv0 with ⟨ic, iv, _⟩
        exact ⟨ic, iv, fun _ => handleTronLink_handled_true m sl w s⟩
      · exact ⟨hc, hv, ht⟩
  · -- latch set: everything relevant is frozen
    have hs := stepFiring_of_handled m sl s hh f
    exact ⟨by rw [hs.2.2, hs.1, hc, hh], by rw [hs.2.1, hs.1, hv, hh],
      fun _ => hs.1⟩

lemma inv_foldl (m sl : Bool) :
    ∀ (l : List (Firing × Option Prov)) (s : DetectState), Inv s →
      Inv (l.foldl (stepFiring m sl) s) := by
  intro l
  induction l with
  | nil => intro s h; exact h
  | cons f rest ih => intro s h; exact ih _ (inv_step m sl s h f)

lemma inv_run (m sl : Bool) (env : DetectEnv) : Inv (runDetectCore m sl env) := by
  unfold runDetectCore
  rcases env with ⟨atCall, firings⟩
  rcases atCall with _ | p
  · exact inv_foldl m sl _ _ inv_armed
  · exact inv_foldl m sl _ _ (inv_handle m sl (some p) _ rfl rfl rfl)

/-- Delivering a `timeoutFire` always leaves the latch set (the timer was
either still armed, or was consumed earlier — in which case the invariant
says the latch is already set). -/
lemma step_timeout_handled (m sl : Bool) (s : DetectState) (h : Inv s)
    (w : Option Prov) :
    (stepFiring m sl s (Firing.timeoutFire, w)).handled = true := by
  simp only [stepFiring]
  split
  · simp [handleTronLink_handled_true]
  · rename_i hts
    exact h.2.2 (by simpa using hts)

/-- If the timeout fires at some point, the promise ends up resolved. -/
lemma value_some_after_timeout (m sl : Bool) :
    ∀ (l : List (Firing × Option Prov)) (s : DetectState), Inv s →
      (∃ w, (Firing.timeoutFire, w) ∈ l) →
      ((l.foldl (stepFiring m sl) s).value).isSome = true := by
  intro l
  induction l with
  | nil =>
    rintro s _ ⟨w, hw⟩
    simp at hw
  | cons f rest ih =>
    rintro s hInv ⟨w, hw⟩
    rcases List.mem_cons.mp hw with heq | hmem
    · subst heq
      have h1 : (stepFiring m sl s (Firing.timeoutFire, w)).handled = true :=
        step_timeout_handled m sl s hInv w
      have hInv1 := inv_step m sl s hInv (Firing.timeoutFire, w)
      have hf := foldl_of_handled m sl rest _ h1
      rw [List.foldl_cons, hf.2.1, hInv1.2.1, h1]
    · exact ih _ (inv_step m sl s hInv f) ⟨w, hmem⟩

/-- **C6.** `detectTronProvider` never rejects: for an ill-typed options bag
(`mustBeTronLink` or `silent` not a boolean, `timeout` not a number, after
destructuring defaults) the validation error is thrown synchronously —
`Except.error`, identically for every environment, before any promise state
exists — and for a well-typed bag the call returns the promise
(`Except.ok`), whose executor only ever resolves (with the provider,
`some (some p)`, or with null, `some none`, never a rejection); it is
resolved whenever the provider slot was populated at call time or the
timeout fires. -/
theorem detectTronProvider_never_rejects :
    (∀ opts env msg, validatedMsg opts = some msg →
      detectTronProvider opts env = Except.error msg)
    ∧ (∀ opts env, validatedMsg opts = none →
      ∃ s, detectTronProvider opts env = Except.ok s ∧
        ((env.atCall.isSome = true ∨ ∃ w, (Firing.timeoutFire, w) ∈ env.firings) →
          s.value.isSome = true)) := by
  constructor
  · intro opts env msg h
    unfold detectTronProvider
    rw [h]
  · intro opts env h
    unfold detectTronProvider
    rw [h]
    refine ⟨_, rfl, ?_⟩
    rintro (hcall | ⟨w, hw⟩)
    · rcases env with ⟨atCall, firings⟩
      rcases atCall with _ | p
      · simp at hcall
      · unfold runDetectCore
        have h1 : (handleTronLink
            (defaulted opts.mustBeTronLink (JsVal.boolv false) == JsVal.boolv true)
            (defaulted opts.silent (JsVal.boolv false) == JsVal.boolv true)
            (some p) ⟨false, false, false, 0, 0, none⟩).handled = true :=
          handleTronLink_handled_true _ _ _ _
        have hf := foldl_of_handled
          (defaulted opts.mustBeTronLink (JsVal.boolv false) == JsVal.boolv true)
          (defaulted opts.silent (JsVal.boolv false) == JsVal.boolv true) firings _ h1
        have hInv := inv_handle
          (defaulted opts.mustBeTronLink (JsVal.boolv false) == JsVal.boolv true)
          (defaulted opts.silent (JsVal.boolv false) == JsVal.boolv true)
          (some p) ⟨false, false, false, 0, 0, none⟩ rfl rfl rfl
        rw [hf.2.1, hInv.2.1, h1]
    · rcases env with ⟨atCall, firings⟩
      rcases atCall with _ | p
      · exact value_some_after_timeout
          (defaulted opts.mustBeTronLink (JsVal.boolv false) == JsVal.boolv true)
          (defaulted opts.silent (JsVal.boolv false) == JsVal.boolv true)
          firings _ inv_armed ⟨w, hw⟩
      · unfold runDetectCore
        have h1 : (handleTronLink
            (defaulted opts.mustBeTronLink (JsVal.boolv false) == JsVal.boolv true)
            (defaulted opts.silent (JsVal.boolv false) == JsVal.boolv true)
            (some p) ⟨false, false, false, 0, 0, none⟩).handled = true :=
          handleTronLink_handled_true _ _ _ _
        have hf := foldl_of_handled
          (defaulted opts.mustBeTronLink (JsVal.boolv false) == JsVal.boolv true)
          (defaulted opts.silent (JsVal.boolv false) == JsVal.boolv true) firings _ h1
        have hInv := inv_handle
          (defaulted opts.mustBeTronLink (JsVal.boolv false) == JsVal.boolv true)
          (defaulted opts.silent (JsVal.boolv false) == JsVal.boolv true)
          (some p) ⟨false, false, false, 0, 0, none⟩ rfl rfl rfl
        rw [hf.2.1, hInv.2.1, h1]

/-- Closed instance of C6: an options bag whose `timeout` is a string is
refused synchronously with the timeout validation message, and a well-typed
empty bag with the provider already injected yields a resolved promise. -/
theorem detectTronProvider_never_rejects_witness :
    detectTronProvider ⟨JsVal.undef, JsVal.undef, JsVal.strv "3000"⟩ ⟨none, []⟩
      = Except.error "@metamask/detect-provider: Expected option timeout to be a number."
    ∧ ∃ s, detectTronProvider ⟨JsVal.undef, JsVal.undef, JsVal.undef⟩ ⟨some ⟨true⟩, []⟩
        = Except.ok s ∧ s.value.isSome = true := by
  constructor
  · exact detectTronProvider_never_rejects.1 _ _ _ rfl
  · obtain ⟨s, hs, hv⟩ := detectTronProvider_never_rejects.2
      ⟨JsVal.undef, JsVal.undef, JsVal.undef⟩ ⟨some ⟨true⟩, []⟩ rfl
    exact ⟨s, hs, hv (Or.inl rfl)⟩

/-- **C7.** The resolution logic of one `detectTronProvider` execution runs
at most once in every environment; and when the provider slot is empty at
call time, whichever of the initialization event and the timeout fires
first performs the resolution — the final value is the one computed at the
first firing, the resolution count is exactly 1, and later firings are
discarded silently by the `handled` latch (no second resolution; the model
has no error channel to raise). -/
theorem handleTronLink_latch :
    (∀ m sl env, (runDetectCore m sl env).resolveCalls ≤ 1)
    ∧ (∀ m sl f w rest,
        (runDetectCore m sl ⟨none, (f, w) :: rest⟩).resolveCalls = 1
        ∧ (runDetectCore m sl ⟨none, (f, w) :: rest⟩).value
            = (handleTronLink m sl w armedState).value) := by
  constructor
  · intro m sl env
    have h := (inv_run m sl env).1
    rw [h]
    split <;> simp
  · intro m sl f w rest
    have hstep : (stepFiring m sl armedState (f, w)).handled = true ∧
        (stepFiring m sl armedState (f, w)).value
          = (handleTronLink m sl w armedState).value ∧
        (stepFiring m sl armedState (f, w)).resolveCalls
          = (handleTronLink m sl w armedState).resolveCalls := by
      cases f <;>
        exact ⟨by simp [stepFiring, armedState, handleTronLink_handled_true], rfl, rfl⟩
    have hcount : (handleTronLink m sl w armedState).resolveCalls = 1 := by
      have hi := (inv_handle m sl w armedState rfl rfl rfl).1
      rwa [handleTronLink_handled_true, if_pos rfl] at hi
    have hf := foldl_of_handled m sl rest _ hstep.1
    unfold runDetectCore
    constructor
    · rw [List.foldl_cons, hf.2.2, hstep.2.2, hcount]
    · rw [List.foldl_cons, hf.2.1, hstep.2.1]

end DetectProvider

namespace EvmTronLink

/-! ### C2, C5: eager connection and initialization idempotence -/

/-- **C2.** In the EVM-style connector, a `connectEagerly` call whose
provider was resolved but whose silent `eth_accounts` read returns an empty
list performs exactly one `resetState` call, never calls `update` (in
particular no chain-id-only partial update), never invokes the cancellation
token, and returns normally: the activation is terminated by the full
reset. -/
theorem connectEagerly_empty_accounts_resets :
    ∀ chainId : String,
      (connectEagerly ⟨true, Except.ok (chainId, [])⟩).1.count Ev.reset = 1
      ∧ (∀ u, Ev.update u ∉ (connectEagerly ⟨true, Except.ok (chainId, [])⟩).1)
      ∧ (∀ t, Ev.cancel t ∉ (connectEagerly ⟨true, Except.ok (chainId, [])⟩).1)
      ∧ (connectEagerly ⟨true, Except.ok (chainId, [])⟩).2 = Except.ok () := by
  intro chainId
  refine ⟨?_, ?_, ?_, ?_⟩ <;> simp [connectEagerly]

/-- One `isomorphicInitialize` call on a fresh instance fills in the
memoized promise; every later call is a no-op. -/
lemma initCalls_succ (pr : Bool) :
    ∀ n, initCalls pr (n + 1) = ⟨true, 1, 1, if pr then 1 else 0⟩ := by
  intro n
  induction n with
  | zero => cases pr <;> rfl
  | succ m ih =>
    show isomorphicInitialize pr (initCalls pr (m + 1)) = _
    rw [ih]
    rfl

/-- One call to the chain-native initializer on a fresh instance fills in
the memoized promise; every later call is a no-op. -/
lemma native_initCalls_succ :
    ∀ n, NativeTronLink.initCalls (n + 1) = ⟨true, 1, 1, 1⟩ := by
  intro n
  induction n with
  | zero => rfl
  | succ m ih =>
    show NativeTronLink.isomorphicInitialize (NativeTronLink.initCalls (m + 1)) = _
    rw [ih]
    rfl

/-- **C5** (amended).  In both lineages, calling `isomorphicInitialize`
N > 1 times on one adapter instance creates the memoized promise exactly
once and runs provider detection exactly once; the memoized promise, once
created, is never recreated.  The long-lived listeners are attached
exactly once per instance in the following sense: the chain-native
initializer attaches its `window` message listener exactly once,
unconditionally, while the EVM-style initializer attaches its provider
listener set exactly once when the detector resolved a provider and zero
times when it did not (its listeners hang off the resolved provider). -/
theorem isomorphicInitialize_idempotent :
    (∀ (pr : Bool) (n : Nat), 1 < n →
      initCalls pr n = ⟨true, 1, 1, if pr then 1 else 0⟩)
    ∧ (∀ n : Nat, 1 < n →
      NativeTronLink.initCalls n = ⟨true, 1, 1, 1⟩) := by
  constructor
  · intro pr n h
    rcases n with _ | m
    · exact absurd h (by simp)
    · exact initCalls_succ pr m
  · intro n h
    rcases n with _ | m
    · exact absurd h (by simp)
    · exact native_initCalls_succ m

/-- Closed instance of C5: three calls on either lineage yield one
detection, one promise, and one listener attachment (for the EVM lineage,
with a resolved provider). -/
theorem isomorphicInitialize_idempotent_witness :
    (1 < 3 ∧ initCalls true 3 = ⟨true, 1, 1, 1⟩)
    ∧ NativeTronLink.initCalls 3 = ⟨true, 1, 1, 1⟩ :=
  ⟨⟨by decide, isomorphicInitialize_idempotent.1 true 3 (by decide)⟩,
   isomorphicInitialize_idempotent.2 3 (by decide)⟩

/-- Counterexample to C5 as stated: when the detector resolves no provider,
two initializer calls still perform exactly one detection but attach the
event listeners zero times, not "exactly once". -/
theorem isomorphicInitialize_no_provider_no_listeners :
    (initCalls false 2).detectCalls = 1
    ∧ (initCalls false 2).listenerSetsAttached = 0 := by
  constructor <;> rfl

end EvmTronLink

/-- **C3** (amended).  When initialization resolves no provider, the
activation token started at entry is cancelled in both lineages, and
neither `update` nor `resetState` is invoked; the EVM-style
`connectEagerly` then returns normally (silent no-connection case), while
the chain-native `connectEagerly` instead throws `NoTronLinkError` after
cancelling. -/
theorem connectEagerly_absent_provider_amended :
    (∀ pair, EvmTronLink.connectEagerly ⟨false, pair⟩
      = ([Ev.startActivation 0, Ev.cancel 0], Except.ok ()))
    ∧ NativeTronLink.connectEagerly ⟨none⟩
      = ([Ev.startActivation 0, Ev.cancel 0], Except.error JsError.noTronLink) := by
  constructor
  · intro pair
    rfl
  · rfl

/-- Counterexample to C3 as stated: in the chain-native lineage a
`connectEagerly` call that resolves no provider does not return normally —
it throws `NoTronLinkError` (after cancelling the activation token). -/
theorem connectEagerly_absent_provider_native_throws :
    (NativeTronLink.connectEagerly ⟨none⟩).2 = Except.error JsError.noTronLink
    ∧ (NativeTronLink.connectEagerly ⟨none⟩).2 ≠ Except.ok () := by
  constructor
  · rfl
  · intro h
    cases h

namespace NativeTronLink

/-- A stored-cancellation invocation is never an `update` call. -/
lemma update_not_mem_cancelEvs (u : Update) (tok : Option Nat) :
    Ev.update u ∉ cancelEvs tok := by
  rcases tok with _ | t <;> simp [cancelEvs]

/-- Every update the chain-native `connect` commits carries a singleton
accounts list (the wallet's default base58 address) — in particular never
an empty one. -/
lemma connect_update_accounts :
    ∀ (env : CNEnv) (tok : Option Nat) (u : Update),
      Ev.update u ∈ (connect env tok).1 → ∃ a, u.accounts? = some [a] := by
  intro env tok u hu
  rcases env with ⟨tl⟩
  rcases tl with _ | w
  · rcases tok with _ | t <;> simp [connect, cancelEvs] at hu
  · rcases w with ⟨tweb, req⟩
    rcases req with e | res
    · rcases tok with _ | t <;> simp [connect, cancelEvs] at hu
    · rcases res with _ | ⟨code, message⟩
      · rcases tok with _ | t <;> simp [connect, cancelEvs] at hu
      · by_cases hcode : code = 200
        · subst hcode
          simp only [connect] at hu
          rw [if_neg (by simp)] at hu
          rcases hb : jsTruthyStr tweb.defaultAddressBase58 with _ | a
          · rcases tok with _ | t <;> simp [hb, cancelEvs] at hu
          · simp [hb] at hu
            subst hu
            exact ⟨a, rfl⟩
        · simp only [connect] at hu
          rw [if_pos hcode] at hu
          rcases tok with _ | t <;> simp [cancelEvs] at hu

end NativeTronLink

namespace EvmTronLink

/-! ### C8: the empty-accounts / reset discipline, and its activate exception -/

/-- Environment in which the explicit `activate` path receives an empty
accounts list from `eth_requestAccounts` (with a matching/absent desired
chain, so the update is committed directly). -/
def envEmptyAccounts : ActEnv :=
  ⟨true, fun _ => ⟨false, Except.ok ("0x1", []), Except.ok (), Except.ok ()⟩⟩

/-- Counterexample to C8 as stated: `activate` forwards the
`eth_requestAccounts` result to `actions.update` without an emptiness
check, so the update action is invoked with an empty accounts list. -/
theorem activate_commits_empty_accounts :
    Ev.update ⟨some (JsNum.int 1), some ([] : List String)⟩
      ∈ (activate envEmptyAccounts 1 none).1 := by
  decide

/-- **C8** (amended).  In both lineages, the provider-event handlers and
the eager path keep the reset discipline — the update action is never
invoked with an empty accounts list by any of them: in the EVM connector,
an `accountsChanged` notification with zero accounts triggers `resetState`
(and any update the handler commits carries the non-empty notification
list), the `disconnect` handler resets and never updates, and
`connectEagerly` never invokes `update` with an empty accounts list; in
the chain-native connector, the `disconnectWeb` message routes through
`resetState` (and reports the error) without updating, an
`accountsChanged` message resets when `tronWeb` is missing and otherwise
commits the singleton `[address]` list, no update of the message listener
ever carries an empty accounts list, and `connect` commits only singleton
account lists.  The explicit EVM `activate` path, however, forwards the
`eth_requestAccounts` list to `update` unchecked, so it can commit an
update with an empty accounts list (`activate_commits_empty_accounts`
exhibits this). -/
theorem update_empty_accounts_policy :
    (∀ accounts : List String, accounts = [] →
      accountsChangedHandler accounts = [Ev.reset])
    ∧ (∀ accounts u, Ev.update u ∈ accountsChangedHandler accounts →
      u.accounts? = some accounts ∧ accounts ≠ [])
    ∧ (∀ u, Ev.update u ∉ disconnectHandler)
    ∧ Ev.reset ∈ disconnectHandler
    ∧ (∀ env u, Ev.update u ∈ (connectEagerly env).1 →
      u.accounts? ≠ some ([] : List String))
    ∧ (∀ tw : Bool, NativeTronLink.messageHandler tw
        NativeTronLink.CNMessage.disconnectWeb = [Ev.reset, Ev.onErrorEv])
    ∧ (∀ addr, NativeTronLink.messageHandler false
        (NativeTronLink.CNMessage.accountsChanged addr) = [Ev.reset])
    ∧ (∀ (tw : Bool) addr u, Ev.update u ∈ NativeTronLink.messageHandler tw
        (NativeTronLink.CNMessage.accountsChanged addr) →
      u.accounts? = some [addr])
    ∧ (∀ (tw : Bool) msg u, Ev.update u ∈ NativeTronLink.messageHandler tw msg →
      u.accounts? ≠ some ([] : List String))
    ∧ (∀ env tok u, Ev.update u ∈ (NativeTronLink.connect env tok).1 →
      u.accounts? ≠ some ([] : List String)) := by
  refine ⟨?_, ?_, ?_, ?_, ?_, ?_, ?_, ?_, ?_, ?_⟩
  · intro accounts h
    subst h
    rfl
  · intro accounts u hu
    unfold accountsChangedHandler at hu
    by_cases h : accounts.length = 0
    · rw [if_pos h] at hu
      simp at hu
    · rw [if_neg h] at hu
      simp at hu
      subst hu
      exact ⟨rfl, by simpa using h⟩
  · intro u hu
    simp [disconnectHandler] at hu
  · simp [disconnectHandler]
  · intro env u hu
    unfold connectEagerly at hu
    rcases env with ⟨pr, pair⟩
    rcases pr with _ | _
    · simp at hu
    · rcases pair with e | ⟨cs, accs⟩
      · simp at hu
      · by_cases h : accs.length ≠ 0
        · simp only [if_pos h] at hu
          simp at hu
          subst hu
          simp
          intro hcontra
          exact h (by simp [hcontra])
        · simp only [if_neg h] at hu
          simp at hu
  · intro tw
    rfl
  · intro addr
    simp [NativeTronLink.messageHandler]
  · intro tw addr u hu
    by_cases htw : tw = false
    · simp [NativeTronLink.messageHandler, htw] at hu
    · simp [NativeTronLink.messageHandler, htw] at hu
      subst hu
      rfl
  · intro tw msg u hu
    rcases msg with addr | _ | _ | chain | _
    · by_cases htw : tw = false
      · simp [NativeTronLink.messageHandler, htw] at hu
      · simp [NativeTronLink.messageHandler, htw] at hu
        subst hu
        simp
    · simp [NativeTronLink.messageHandler] at hu
    · simp [NativeTronLink.messageHandler] at hu
    · by_cases hc : chain = "_"
      · simp [NativeTronLink.messageHandler, hc] at hu
        subst hu
        simp
      · simp [NativeTronLink.messageHandler, hc] at hu
        subst hu
        simp
    · simp [NativeTronLink.messageHandler] at hu
  · intro env tok u hu
    obtain ⟨a, ha⟩ := NativeTronLink.connect_update_accounts env tok u hu
    simp [ha]

/-- Closed instance of the amended C8: a one-account notification commits
an update carrying exactly that non-empty list. -/
theorem update_empty_accounts_policy_witness :
    Update.accounts? ⟨none, some ["TXYZaccount1"]⟩ = some ["TXYZaccount1"]
    ∧ ["TXYZaccount1"] ≠ ([] : List String) :=
  update_empty_accounts_policy.2.1 ["TXYZaccount1"] ⟨none, some ["TXYZaccount1"]⟩
    (by decide)

end EvmTronLink

namespace EvmTronLink

/-! ### Lemmas about the `activate` recursion -/

/-- The final `.catch` appends no `wallet_addEthereumChain` request. -/
lemma withCatch_filter_add (st : Bool) (d : Nat)
    (p : List Ev × Option (Except JsError Unit)) :
    (withCatch st d p).1.filter isAddEv = p.1.filter isAddEv := by
  rcases p with ⟨tr, r⟩
  rcases r with _ | r
  · rfl
  · cases r with
    | error e => cases st <;> simp [withCatch, isAddEv]
    | ok u => rfl

/-- The final `.catch` appends no recursion marker. -/
lemma withCatch_filter_recurse (st : Bool) (d k : Nat)
    (p : List Ev × Option (Except JsError Unit)) :
    (withCatch st d p).1.filter (isRecurseFrom k) = p.1.filter (isRecurseFrom k) := by
  rcases p with ⟨tr, r⟩
  rcases r with _ | r
  · rfl
  · cases r with
    | error e => cases st <;> simp [withCatch, isRecurseFrom]
    | ok u => rfl

/-- The final `.catch` preserves the settled outcome. -/
lemma withCatch_snd (st : Bool) (d : Nat)
    (p : List Ev × Option (Except JsError Unit)) :
    (withCatch st d p).2 = p.2 := by
  rcases p with ⟨tr, r⟩
  rcases r with _ | r
  · rfl
  · cases r with
    | error e => rfl
    | ok u => rfl

/-- The `.catch` of a frame at non-zero depth cancels only its own token,
never token 0. -/
lemma withCatch_count_cancel0 (st : Bool) (d : Nat) (hd : d ≠ 0)
    (p : List Ev × Option (Except JsError Unit)) :
    (withCatch st d p).1.count (Ev.cancel 0) = p.1.count (Ev.cancel 0) := by
  rcases p with ⟨tr, r⟩
  rcases r with _ | r
  · rfl
  · cases r with
    | error e =>
      cases st <;>
        simp [withCatch, List.count_append, List.count_cons, Ne.symm hd]
    | ok u => rfl

/-- A possibly-started activation start event matches no other counter. -/
lemma filter_start_if (p : Ev → Bool) (c : Prop) [Decidable c] (d : Nat)
    (h : p (Ev.startActivation d) = false) :
    (if c then [Ev.startActivation d] else []).filter p = [] := by
  split <;> simp [h]

lemma count_cancel0_start_if (c : Prop) [Decidable c] (d : Nat) :
    (if c then [Ev.startActivation d] else []).count (Ev.cancel 0) = 0 := by
  split <;> rfl

/-- A frame whose argument is a plain numeric chain id can never issue a
`wallet_addEthereumChain` request (the `typeof !== "number"` guard fails),
provided its recursive calls — which are numeric as well — cannot
either. -/
lemma frameBody_num_filter_add (env : ActEnv)
    (F : Option DesiredChain → List Ev × Option (Except JsError Unit))
    (depth : Nat) (n : Int)
    (hrec : ∀ m : Int, ((F (some (DesiredChain.num m))).1.filter isAddEv) = []) :
    ((frameBody env F depth (some (DesiredChain.num n))).1.filter isAddEv) = [] := by
  unfold frameBody
  split
  · rfl
  · rcases hp : (env.rounds depth).pairRes with e | ⟨cs, accs⟩ <;> simp only [hp]
    · simp [isAddEv]
    · simp only [desiredOf]
      split
      · simp [isAddEv]
      · rcases hsw : (env.rounds depth).switchRes with e | u <;> simp only [hsw]
        · simp [isNumArg, isAddEv]
        · simp [isAddEv, List.filter_append, hrec n]

/-- No frame of an `activate` recursion entered with a numeric argument —
at any depth, with any fuel — ever issues `wallet_addEthereumChain`. -/
lemma activateAux_num_filter_add (env : ActEnv) :
    ∀ (fuel depth : Nat) (n : Int),
      ((activateAux env fuel depth (some (DesiredChain.num n))).1.filter isAddEv) = [] := by
  intro fuel
  induction fuel with
  | zero => intro depth n; rfl
  | succ fuel ih =>
    intro depth n
    simp only [activateAux]
    rw [List.filter_append, withCatch_filter_add,
      frameBody_num_filter_add env (activateAux env fuel (depth + 1)) depth n
        (fun m => ih (depth + 1) m),
      List.append_nil]
    exact filter_start_if isAddEv _ depth rfl

/-- A frame at non-zero depth emits no depth-0 recursion marker (its own
marker carries its own depth), provided its recursive calls emit none. -/
lemma frameBody_deep_filter_recurse0 (env : ActEnv)
    (F : Option DesiredChain → List Ev × Option (Except JsError Unit))
    (depth : Nat) (arg : Option DesiredChain) (hd : depth ≠ 0)
    (hrec : ∀ a, ((F a).1.filter (isRecurseFrom 0)) = []) :
    ((frameBody env F depth arg).1.filter (isRecurseFrom 0)) = [] := by
  unfold frameBody
  split
  · rfl
  · rcases hp : (env.rounds depth).pairRes with e | ⟨cs, accs⟩ <;> simp only [hp]
    · simp [isRecurseFrom]
    · rcases harg : desiredOf arg with _ | d <;> simp only [harg]
      · simp [isRecurseFrom]
      · split
        · simp [isRecurseFrom]
        · rcases hsw : (env.rounds depth).switchRes with e | u <;> simp only [hsw]
          · by_cases hg : e.code = 4902 ∧ isNumArg arg = false
            · rw [if_pos hg]
              rcases hadd : (env.rounds depth).addRes with e2 | u2 <;>
                simp [hadd, isRecurseFrom, List.filter_append, hrec, hd]
            · rw [if_neg hg]
              simp [isRecurseFrom]
          · simp [isRecurseFrom, List.filter_append, hrec, hd]

/-- No frame at depth ≥ 1 — with any fuel, any argument — emits a depth-0
recursion marker. -/
lemma activateAux_deep_filter_recurse0 (env : ActEnv) :
    ∀ (fuel depth : Nat) (arg : Option DesiredChain), depth ≠ 0 →
      ((activateAux env fuel depth arg).1.filter (isRecurseFrom 0)) = [] := by
  intro fuel
  induction fuel with
  | zero => intro depth arg _; rfl
  | succ fuel ih =>
    intro depth arg hd
    simp only [activateAux]
    rw [List.filter_append, withCatch_filter_recurse,
      frameBody_deep_filter_recurse0 env (activateAux env fuel (depth + 1)) depth arg hd
        (fun a => ih (depth + 1) a (Nat.succ_ne_zero depth)),
      List.append_nil]
    exact filter_start_if (isRecurseFrom 0) _ depth rfl

/-- `frameBody` itself invokes no cancellation at all (cancellations happen
only in `.catch` handlers), so its trace cancels token 0 exactly as often
as its recursive calls do. -/
lemma frameBody_count_cancel0 (env : ActEnv)
    (F : Option DesiredChain → List Ev × Option (Except JsError Unit))
    (depth : Nat) (arg : Option DesiredChain)
    (hrec : ∀ a, ((F a).1.count (Ev.cancel 0)) = 0) :
    ((frameBody env F depth arg).1.count (Ev.cancel 0)) = 0 := by
  unfold frameBody
  split
  · rfl
  · rcases hp : (env.rounds depth).pairRes with e | ⟨cs, accs⟩ <;> simp only [hp]
    · rfl
    · rcases harg : desiredOf arg with _ | d <;> simp only [harg]
      · rfl
      · split
        · rfl
        · rcases hsw : (env.rounds depth).switchRes with e | u <;> simp only [hsw]
          · by_cases hg : e.code = 4902 ∧ isNumArg arg = false
            · rw [if_pos hg]
              rcases hadd : (env.rounds depth).addRes with e2 | u2 <;>
                simp [hadd, List.count_append, List.count_cons, hrec]
            · rw [if_neg hg]
              simp [List.count_append, List.count_cons]
          · simp [List.count_append, List.count_cons, hrec]

/-- Frames at depth ≥ 1 never cancel token 0: each frame cancels only its
own token, which is its own (non-zero) depth. -/
lemma activateAux_deep_count_cancel0 (env : ActEnv) :
    ∀ (fuel depth : Nat) (arg : Option DesiredChain), depth ≠ 0 →
      ((activateAux env fuel depth arg).1.count (Ev.cancel 0)) = 0 := by
  intro fuel
  induction fuel with
  | zero => intro depth arg _; rfl
  | succ fuel ih =>
    intro depth arg hd
    simp only [activateAux]
    rw [List.count_append, withCatch_count_cancel0 _ depth hd,
      frameBody_count_cancel0 env (activateAux env fuel (depth + 1)) depth arg
        (fun a => ih (depth + 1) a (Nat.succ_ne_zero depth)),
      count_cancel0_start_if]

end EvmTronLink

namespace EvmTronLink

/-! ### Shape of a frame that reaches the network-switch fallback -/

/-- Shape lemma: full chain parameters, mismatched chain, switch rejected
with code 4902, add-chain request fulfilled — the frame issues the
add-chain request and re-enters `activate` with the numeric target id. -/
lemma frameBody_params_addok (env : ActEnv)
    (F : Option DesiredChain → List Ev × Option (Except JsError Unit))
    (depth : Nat) (pc : Int) (cs : String) (accs : List String) (e : RpcError)
    (hprov : env.providerResolved = true)
    (hpair : (env.rounds depth).pairRes = Except.ok (cs, accs))
    (hnz : pc ≠ 0) (hne : jsNumEqInt (parseChainId cs) pc = false)
    (hsw : (env.rounds depth).switchRes = Except.error e)
    (h4902 : e.code = 4902)
    (hadd : (env.rounds depth).addRes = Except.ok ()) :
    frameBody env F depth (some (DesiredChain.params pc))
      = ([Ev.reqAccountsPair, Ev.reqSwitch (chainIdHexString pc),
          Ev.reqAdd (chainIdHexString pc), Ev.recurse depth pc]
            ++ (F (some (DesiredChain.num pc))).1,
         (F (some (DesiredChain.num pc))).2) := by
  have hmm : ¬ (pc = 0 ∨ jsNumEqInt (parseChainId cs) pc = true) := by
    rintro (h | h)
    · exact hnz h
    · rw [hne] at h
      exact Bool.false_ne_true h
  unfold frameBody
  simp only [hprov, hpair, desiredOf]
  rw [if_neg hmm, if_neg (by simp)]
  simp only [hsw]
  rw [if_pos ⟨h4902, rfl⟩]
  simp [hadd]

/-- Shape lemma: as above but the add-chain request itself is rejected —
the frame does not re-enter `activate` and the add error propagates. -/
lemma frameBody_params_addfail (env : ActEnv)
    (F : Option DesiredChain → List Ev × Option (Except JsError Unit))
    (depth : Nat) (pc : Int) (cs : String) (accs : List String) (e e2 : RpcError)
    (hprov : env.providerResolved = true)
    (hpair : (env.rounds depth).pairRes = Except.ok (cs, accs))
    (hnz : pc ≠ 0) (hne : jsNumEqInt (parseChainId cs) pc = false)
    (hsw : (env.rounds depth).switchRes = Except.error e)
    (h4902 : e.code = 4902)
    (hadd : (env.rounds depth).addRes = Except.error e2) :
    frameBody env F depth (some (DesiredChain.params pc))
      = ([Ev.reqAccountsPair, Ev.reqSwitch (chainIdHexString pc),
          Ev.reqAdd (chainIdHexString pc)],
         some (Except.error (JsError.rpc e2))) := by
  have hmm : ¬ (pc = 0 ∨ jsNumEqInt (parseChainId cs) pc = true) := by
    rintro (h | h)
    · exact hnz h
    · rw [hne] at h
      exact Bool.false_ne_true h
  unfold frameBody
  simp only [hprov, hpair, desiredOf]
  rw [if_neg hmm, if_neg (by simp)]
  simp only [hsw]
  rw [if_pos ⟨h4902, rfl⟩]
  simp [hadd]

/-- Shape lemma: the switch request is rejected with any code other than
4902 — no add-chain request, the switch error propagates. -/
lemma frameBody_params_othererr (env : ActEnv)
    (F : Option DesiredChain → List Ev × Option (Except JsError Unit))
    (depth : Nat) (pc : Int) (cs : String) (accs : List String) (e : RpcError)
    (hprov : env.providerResolved = true)
    (hpair : (env.rounds depth).pairRes = Except.ok (cs, accs))
    (hnz : pc ≠ 0) (hne : jsNumEqInt (parseChainId cs) pc = false)
    (hsw : (env.rounds depth).switchRes = Except.error e)
    (h4902 : ¬ e.code = 4902) :
    frameBody env F depth (some (DesiredChain.params pc))
      = ([Ev.reqAccountsPair, Ev.reqSwitch (chainIdHexString pc)],
         some (Except.error (JsError.rpc e))) := by
  have hmm : ¬ (pc = 0 ∨ jsNumEqInt (parseChainId cs) pc = true) := by
    rintro (h | h)
    · exact hnz h
    · rw [hne] at h
      exact Bool.false_ne_true h
  have hg : ¬ (e.code = 4902 ∧ isNumArg (some (DesiredChain.params pc)) = false) := by
    rintro ⟨h, _⟩
    exact h4902 h
  unfold frameBody
  simp only [hprov, hpair, desiredOf]
  rw [if_neg hmm, if_neg (by simp)]
  simp only [hsw]
  rw [if_neg hg]
  simp

end EvmTronLink

namespace EvmTronLink

/-! ### C4 and C1: cancellation and the add-chain fallback of `activate` -/

/-- **C4.** In both lineages: every `activate` call that started an
activation token (the provider did not report itself connected at entry)
and whose promise settles with an error invokes the cancellation callback
of its own token exactly once, before the error reaches the caller.  For
the EVM-style connector this covers the not-installed error, a rejected
`eth_chainId`/`eth_requestAccounts` pair, a propagated switch or add
error, and a failed recursive re-verification (the final `.catch` cancels
once; the tokens of recursive frames are distinct and cancelled by their
own frames).  For the chain-native connector it covers every throwing path
of `connect` — a rejected `tron_requestAccounts`, a locked wallet (falsy
response), a non-200 response code, and a missing default base58 address —
whose shared `.catch` invokes the stored cancellation once and
rethrows. -/
theorem activate_error_cancels_once :
    (∀ (env : ActEnv) (fuel : Nat) (arg : Option DesiredChain) (e : JsError),
      (env.rounds 0).isConnected = false →
      (activate env (fuel + 1) arg).2 = some (Except.error e) →
      (activate env (fuel + 1) arg).1.count (Ev.cancel 0) = 1)
    ∧ (∀ (env : NativeTronLink.CNEnv) (prevTok : Option Nat) (e : JsError),
      (NativeTronLink.activate env false prevTok).2 = Except.error e →
      (NativeTronLink.activate env false prevTok).1.count (Ev.cancel 0) = 1) := by
  constructor
  · intro env fuel arg e hconn hres
    have hb := frameBody_count_cancel0 env (activateAux env fuel (0 + 1)) 0 arg
      (fun a => activateAux_deep_count_cancel0 env fuel (0 + 1) a (by simp))
    unfold activate at hres ⊢
    simp only [activateAux, hconn] at hres ⊢
    rw [withCatch_snd] at hres
    rcases hB : frameBody env (activateAux env fuel (0 + 1)) 0 arg with ⟨tr, r⟩
    rw [hB] at hres hb
    have hr : r = some (Except.error e) := hres
    have hb2 : tr.count (Ev.cancel 0) = 0 := hb
    subst hr
    simp [withCatch, List.count_append, hb2]
  · intro env prevTok e hres
    rcases env with ⟨tl⟩
    simp only [NativeTronLink.activate, if_neg (by simp : ¬ (false = true))]
      at hres ⊢
    rcases tl with _ | w
    · simp [NativeTronLink.connect, NativeTronLink.cancelEvs] at hres
    · rcases w with ⟨tweb, req⟩
      rcases req with e2 | res
      · simp [NativeTronLink.connect, NativeTronLink.cancelEvs]
      · rcases res with _ | ⟨code, message⟩
        · simp [NativeTronLink.connect, NativeTronLink.cancelEvs]
        · by_cases hcode : code = 200
          · subst hcode
            simp only [NativeTronLink.connect] at hres ⊢
            rw [if_neg (by simp)] at hres ⊢
            rcases hb : NativeTronLink.jsTruthyStr tweb.defaultAddressBase58
              with _ | a
            · simp [hb, NativeTronLink.cancelEvs]
            · simp [hb] at hres
          · simp only [NativeTronLink.connect] at hres ⊢
            rw [if_pos hcode] at hres ⊢
            simp [NativeTronLink.cancelEvs]

/-- Environment for the EVM half of the C4 witness: no provider is
resolved, so `activate` throws the not-installed error after cancelling
its token. -/
def envActNoProvider : ActEnv :=
  ⟨false, fun _ => ⟨false, Except.ok ("0x1", ["TXYZaccountA"]), Except.ok (), Except.ok ()⟩⟩

/-- Environment for the chain-native half of the C4 witness: the wallet is
resolved but locked — `tron_requestAccounts` fulfills with a falsy
response, so `connect` throws `TronLinkError("Wallet is locked!", 100)`
after cancelling. -/
def envActLockedWallet : NativeTronLink.CNEnv :=
  ⟨some ⟨⟨some "TXYZaccountA"⟩, Except.ok NativeTronLink.CNResponse.nullish⟩⟩

/-- Closed instance of C4 for both lineages: the EVM `activate` with no
provider resolved settles with `NoTronLinkError` and cancels token 0
exactly once; the chain-native `activate` on a locked wallet cancels its
token exactly once before its error propagates. -/
theorem activate_error_cancels_once_witness :
    ((activate envActNoProvider 1 none).1.count (Ev.cancel 0) = 1
      ∧ (activate envActNoProvider 1 none).2
          = some (Except.error JsError.noTronLink))
    ∧ (NativeTronLink.activate envActLockedWallet false none).1.count (Ev.cancel 0) = 1 :=
  ⟨⟨activate_error_cancels_once.1 envActNoProvider 0 none JsError.noTronLink rfl (by decide),
    by decide⟩,
   activate_error_cancels_once.2 envActLockedWallet none
     (JsError.tronLink "Wallet is locked!" 100) (by decide)⟩

/-- **C1** (amended).  For an `activate` call with full chain parameters
whose reported chain differs from the (non-falsy) target: if the
network-switch request is rejected with code 4902, exactly one add-chain
request is issued in the whole call tree; when that add-chain request
succeeds it is followed by exactly one direct recursive re-verification
call to `activate` with the numeric target id (deeper frames, being
numeric, can issue no further add-chain requests), and when the add-chain
request fails its error propagates and no recursive call is made.  If the
switch request is rejected with any other code, the error propagates
unchanged and no add-chain request is issued. -/
theorem activate_unrecognized_chain_fallback (env : ActEnv) (fuel : Nat)
    (pc : Int) (cs : String) (accs : List String) (e : RpcError)
    (hprov : env.providerResolved = true)
    (hpair : (env.rounds 0).pairRes = Except.ok (cs, accs))
    (hnz : pc ≠ 0) (hne : jsNumEqInt (parseChainId cs) pc = false)
    (hsw : (env.rounds 0).switchRes = Except.error e) :
    (e.code = 4902 →
      ((activate env (fuel + 1) (some (DesiredChain.params pc))).1.filter isAddEv).length = 1
      ∧ ((env.rounds 0).addRes = Except.ok () →
          (activate env (fuel + 1) (some (DesiredChain.params pc))).1.filter (isRecurseFrom 0)
            = [Ev.recurse 0 pc])
      ∧ (∀ e2, (env.rounds 0).addRes = Except.error e2 →
          (activate env (fuel + 1) (some (DesiredChain.params pc))).1.filter (isRecurseFrom 0) = []
          ∧ (activate env (fuel + 1) (some (DesiredChain.params pc))).2
              = some (Except.error (JsError.rpc e2))))
    ∧ (¬ e.code = 4902 →
      ((activate env (fuel + 1) (some (DesiredChain.params pc))).1.filter isAddEv) = []
      ∧ (activate env (fuel + 1) (some (DesiredChain.params pc))).2
          = some (Except.error (JsError.rpc e))) := by
  have hNoAdd : ∀ m : Int,
      ((activateAux env fuel (0 + 1) (some (DesiredChain.num m))).1.filter isAddEv) = [] :=
    fun m => activateAux_num_filter_add env fuel (0 + 1) m
  have hNoRec : ∀ a,
      ((activateAux env fuel (0 + 1) a).1.filter (isRecurseFrom 0)) = [] :=
    fun a => activateAux_deep_filter_recurse0 env fuel (0 + 1) a (by simp)
  constructor
  · intro h4902
    refine ⟨?_, ?_, ?_⟩
    · rcases hadd : (env.rounds 0).addRes with e2 | u2
      · unfold activate
        simp only [activateAux]
        rw [List.filter_append, withCatch_filter_add,
          frameBody_params_addfail env _ 0 pc cs accs e e2 hprov hpair hnz hne hsw h4902 hadd,
          filter_start_if isAddEv _ 0 rfl]
        simp [isAddEv]
      · unfold activate
        simp only [activateAux]
        rw [List.filter_append, withCatch_filter_add,
          frameBody_params_addok env _ 0 pc cs accs e hprov hpair hnz hne hsw h4902 hadd,
          filter_start_if isAddEv _ 0 rfl]
        simp [isAddEv, List.filter_append, hNoAdd pc]
    · intro hadd
      unfold activate
      simp only [activateAux]
      rw [List.filter_append, withCatch_filter_recurse,
        frameBody_params_addok env _ 0 pc cs accs e hprov hpair hnz hne hsw h4902 hadd,
        filter_start_if (isRecurseFrom 0) _ 0 rfl]
      simp [isRecurseFrom, List.filter_append, hNoRec]
    · intro e2 hadd
      constructor
      · unfold activate
        simp only [activateAux]
        rw [List.filter_append, withCatch_filter_recurse,
          frameBody_params_addfail env _ 0 pc cs accs e e2 hprov hpair hnz hne hsw h4902 hadd,
          filter_start_if (isRecurseFrom 0) _ 0 rfl]
        simp [isRecurseFrom]
      · unfold activate
        simp only [activateAux]
        rw [withCatch_snd,
          frameBody_params_addfail env _ 0 pc cs accs e e2 hprov hpair hnz hne hsw h4902 hadd]
  · intro h4902
    constructor
    · unfold activate
      simp only [activateAux]
      rw [List.filter_append, withCatch_filter_add,
        frameBody_params_othererr env _ 0 pc cs accs e hprov hpair hnz hne hsw h4902,
        filter_start_if isAddEv _ 0 rfl]
      simp [isAddEv]
    · unfold activate
      simp only [activateAux]
      rw [withCatch_snd,
        frameBody_params_othererr env _ 0 pc cs accs e hprov hpair hnz hne hsw h4902]

end EvmTronLink

namespace EvmTronLink

/-- Environment for the C1 counterexample: the wallet reports chain 1, the
switch to chain 2 is rejected with code 4902, and the add-chain request is
itself rejected (code 4001). -/
def envAddFails : ActEnv :=
  ⟨true, fun _ => ⟨false, Except.ok ("0x1", ["TXYZaccountB"]),
    Except.error ⟨4902, "unrecognized chain"⟩,
    Except.error ⟨4001, "user rejected add"⟩⟩⟩

/-- Counterexample to C1 as stated: with a mismatched chain, a 4902 switch
rejection and full chain parameters, the add-chain request is issued — but
because it fails, no recursive re-verification call follows (C1 claims
exactly one always follows), and the add error propagates. -/
theorem activate_add_failure_no_recursion :
    ((activate envAddFails 2 (some (DesiredChain.params 2))).1.filter isAddEv).length = 1
    ∧ (activate envAddFails 2 (some (DesiredChain.params 2))).1.filter (isRecurseFrom 0) = []
    ∧ (activate envAddFails 2 (some (DesiredChain.params 2))).2
        = some (Except.error (JsError.rpc ⟨4001, "user rejected add"⟩)) := by
  refine ⟨?_, ?_, ?_⟩ <;> decide

/-- Environment for the C1 witness: as `envAddFails` but the add-chain
request succeeds, so the recursive re-verification is entered. -/
def envAddSucceeds : ActEnv :=
  ⟨true, fun _ => ⟨false, Except.ok ("0x1", ["TXYZaccountB"]),
    Except.error ⟨4902, "unrecognized chain"⟩, Except.ok ()⟩⟩

/-- Closed instance of the amended C1: when the add-chain request succeeds,
the call tree issues exactly one add-chain request and exactly one direct
recursive re-verification with the numeric target id 2. -/
theorem activate_unrecognized_chain_fallback_witness :
    ((activate envAddSucceeds 2 (some (DesiredChain.params 2))).1.filter isAddEv).length = 1
    ∧ (activate envAddSucceeds 2 (some (DesiredChain.params 2))).1.filter (isRecurseFrom 0)
        = [Ev.recurse 0 2] := by
  have h := activate_unrecognized_chain_fallback envAddSucceeds 1 2 "0x1"
    ["TXYZaccountB"] ⟨4902, "unrecognized chain"⟩ rfl rfl (by decide) (by decide) rfl
  exact ⟨(h.1 rfl).1, (h.1 rfl).2.1 rfl⟩

end EvmTronLink

namespace NativeTronLink

/-! ### C9: the chain-native connector commits only the two constants -/

/-- **C9.** Every successful connection of the chain-native connector —
through `connect`, reached from `connectEagerly` or `activate` with a
resolved wallet — commits exactly one update, and it is
`{chainId: 1000000000, accounts: [a]}` where `a` is the wallet's truthy
default base58 address; the hard-coded constant is never read from the
wallet.  The window message listener commits chain id 1000000000
everywhere except the `setNode` branch for a chain other than `"_"`, which
commits the only other constant, 1000000001. -/
theorem native_update_discipline :
    (∀ env tok w, env.tronlink = some w → (connect env tok).2 = Except.ok () →
      ∃ a, jsTruthyStr w.tronWeb.defaultAddressBase58 = some a ∧
        updateEvents (connect env tok).1
          = [Ev.update ⟨some (JsNum.int 1000000000), some [a]⟩])
    ∧ (∀ env w, env.tronlink = some w → (connectEagerly env).2 = Except.ok () →
      ∃ a, jsTruthyStr w.tronWeb.defaultAddressBase58 = some a ∧
        updateEvents (connectEagerly env).1
          = [Ev.update ⟨some (JsNum.int 1000000000), some [a]⟩])
    ∧ (∀ env pc tok w, env.tronlink = some w →
        (activate env pc tok).2 = Except.ok () →
      ∃ a, jsTruthyStr w.tronWeb.defaultAddressBase58 = some a ∧
        updateEvents (activate env pc tok).1
          = [Ev.update ⟨some (JsNum.int 1000000000), some [a]⟩])
    ∧ (∀ tw msg u, Ev.update u ∈ messageHandler tw msg →
        u.chainId? = some (JsNum.int 1000000000)
        ∨ (u.chainId? = some (JsNum.int 1000000001)
            ∧ ∃ c, msg = CNMessage.setNode c ∧ c ≠ "_")) := by
  have hconn : ∀ env tok w, env.tronlink = some w →
      (connect env tok).2 = Except.ok () →
      ∃ a, jsTruthyStr w.tronWeb.defaultAddressBase58 = some a ∧
        updateEvents (connect env tok).1
          = [Ev.update ⟨some (JsNum.int 1000000000), some [a]⟩] := by
    intro env tok w hw hok
    rcases env with ⟨tl⟩
    have hw2 : tl = some w := hw
    subst hw2
    rcases w with ⟨tweb, req⟩
    rcases req with e | res
    · simp [connect] at hok
    · rcases res with _ | ⟨code, message⟩
      · simp [connect] at hok
      · by_cases hcode : code = 200
        · subst hcode
          simp only [connect] at hok ⊢
          rw [if_neg (by simp)] at hok ⊢
          rcases hb : jsTruthyStr tweb.defaultAddressBase58 with _ | a
          · simp [hb] at hok
          · refine ⟨a, ?_, ?_⟩
            · simp [hb]
            · simp [updateEvents, hb]
        · simp only [connect] at hok
          rw [if_pos hcode] at hok
          simp at hok
  refine ⟨hconn, ?_, ?_, ?_⟩
  · intro env w hw hok
    rcases env with ⟨tl⟩
    have hw2 : tl = some w := hw
    subst hw2
    simp only [connectEagerly] at hok ⊢
    have hok2 : (connect ⟨some w⟩ (some 0)).2 = Except.ok () := hok
    obtain ⟨a, ha, hu⟩ := hconn ⟨some w⟩ (some 0) w rfl hok2
    refine ⟨a, ha, ?_⟩
    show updateEvents (Ev.startActivation 0 :: (connect ⟨some w⟩ (some 0)).1) = _
    rw [show updateEvents (Ev.startActivation 0 :: (connect ⟨some w⟩ (some 0)).1)
      = updateEvents (connect ⟨some w⟩ (some 0)).1 from by simp [updateEvents]]
    exact hu
  · intro env pc tok w hw hok
    rcases pc with _ | _
    · simp only [activate, if_neg (by simp : ¬ (false = true))] at hok ⊢
      have hok2 : (connect env (some 0)).2 = Except.ok () := hok
      obtain ⟨a, ha, hu⟩ := hconn env (some 0) w hw hok2
      refine ⟨a, ha, ?_⟩
      show updateEvents (Ev.startActivation 0 :: (connect env (some 0)).1) = _
      rw [show updateEvents (Ev.startActivation 0 :: (connect env (some 0)).1)
        = updateEvents (connect env (some 0)).1 from by simp [updateEvents]]
      exact hu
    · simp only [activate, if_pos rfl] at hok ⊢
      exact hconn env tok w hw hok
  · intro tw msg u hu
    rcases msg with addr | _ | _ | chain | _
    · by_cases htw : tw = false
      · simp [messageHandler, htw] at hu
      · simp [messageHandler, htw] at hu
        subst hu
        left
        rfl
    · simp [messageHandler] at hu
    · simp [messageHandler] at hu
    · by_cases hc : chain = "_"
      · simp [messageHandler, hc] at hu
        subst hu
        left
        rfl
      · simp [messageHandler, hc] at hu
        subst hu
        right
        exact ⟨rfl, chain, rfl, hc⟩
    · simp [messageHandler] at hu

/-- Wallet for the C9 witness: unlocked, request code 200, default base58
address present. -/
def walletW : CNWallet :=
  ⟨⟨some "TXYZdefaultAddr"⟩, Except.ok (CNResponse.resp 200 "ok")⟩

/-- Closed instance of C9: a successful `connect` commits exactly the one
canonical update. -/
theorem native_update_discipline_witness :
    ∃ a, jsTruthyStr walletW.tronWeb.defaultAddressBase58 = some a ∧
      updateEvents (connect ⟨some walletW⟩ none).1
        = [Ev.update ⟨some (JsNum.int 1000000000), some [a]⟩] :=
  native_update_discipline.1 ⟨some walletW⟩ none walletW rfl rfl

end NativeTronLink

namespace TronSigner

/-! ### C10: the `sendTransaction` "No data" guard -/

/-- Counterexample to C10 as stated: a transaction whose `value` field is
present (the number 0) but falsy, with `to` absent, is rejected with
`"No data"` even though one of the two fields is present — the guard tests
JS falsiness, not absence. -/
theorem sendTransaction_zero_value_rejected :
    sendTransaction true ⟨TxField.undef, TxField.numv 0⟩
      = SendResult.rejected "No data"
    ∧ TxField.numv 0 ≠ TxField.undef := by
  constructor
  · rfl
  · intro h
    cases h

/-- **C10** (amended).  With the signing provider present,
`sendTransaction` rejects with `"No data"` exactly when both the `to` and
the `value` fields are JS-falsy (absent, empty string, or zero); whenever
at least one of the two is truthy, the `(to, value)` pair is forwarded to
the external `tronWeb.trx.sendTransaction` even though the other field may
be undefined. -/
theorem sendTransaction_no_data_iff_both_falsy (tx : TxRequest) :
    (sendTransaction true tx = SendResult.rejected "No data"
      ↔ (txFalsy tx.«to» = true ∧ txFalsy tx.value = true))
    ∧ (¬ (txFalsy tx.«to» = true ∧ txFalsy tx.value = true) →
        sendTransaction true tx = SendResult.forwarded tx.«to» tx.value) := by
  constructor
  · constructor
    · intro h
      by_cases hf : txFalsy tx.«to» = true ∧ txFalsy tx.value = true
      · exact hf
      · unfold sendTransaction at h
        rw [if_neg (by simp), if_neg hf] at h
        cases h
    · intro hf
      unfold sendTransaction
      rw [if_neg (by simp), if_pos hf]
  · intro hf
    unfold sendTransaction
    rw [if_neg (by simp), if_neg hf]

/-- Closed instance of the amended C10: a transaction with a truthy `to`
and an absent `value` is forwarded as the pair `(to, undefined)`. -/
theorem sendTransaction_no_data_iff_both_falsy_witness :
    sendTransaction true ⟨TxField.strv "TXYZdest", TxField.undef⟩
      = SendResult.forwarded (TxField.strv "TXYZdest") TxField.undef :=
  (sendTransaction_no_data_iff_both_falsy ⟨TxField.strv "TXYZdest", TxField.undef⟩).2
    (by decide)

end TronSigner
